import Mathlib

/-!
Shallow embedding of the "drift" repository's Latent Engine core:
geo math and phantom-location synthesis (src/services/audioEngine.ts),
the trigger policy and transmission assembly (latentEngine module),
and prompt post-processing (prompts module).

JavaScript numbers are modelled as exact rationals (ℚ) for the purely
arithmetic functions — every IEEE double is a rational, and the source
performs only field operations and absolute values there — and as reals
(ℝ) for the trigonometric functions (haversine distance, bearing).
Outcomes of `Math.random()` are passed as explicit ℚ parameters in
[0, 1), in the order the source draws them.  Fallible or effectful
collaborators (the LLM call, the persistence store) are modelled with
`Except` and explicit state threading.
-/

namespace Drift

/-- Position record (types.ts `Position`). -/
structure Position where
  latitude : ℚ
  longitude : ℚ
  heading : Option ℚ
  accuracy : ℚ
  timestamp : ℚ
deriving DecidableEq, Repr

/-- Wikipedia geosearch anchor (types.ts `WikiArticle`). -/
structure WikiArticle where
  pageid : ℤ
  title : String
  lat : ℚ
  lon : ℚ
  dist : ℚ
  primary : Option String
deriving DecidableEq, Repr

/-- Result record of `generatePhantomCoordinates` (anonymous object
`{ lat, lon, dimensionalDrift }` in audioEngine.ts). -/
structure PhantomCoords where
  lat : ℚ
  lon : ℚ
  dimensionalDrift : ℚ
deriving DecidableEq, Repr

/-- Phantom location (types.ts `PhantomLocation`). -/
structure PhantomLocation where
  lat : ℚ
  lon : ℚ
  dimensionalDrift : ℚ
  anchors : List String
deriving DecidableEq, Repr

/-- Centroid arithmetic of `findCentroid` (audioEngine.ts), on the
nonempty-input path: mean latitude and mean longitude. -/
def centroidOf (points : List (ℚ × ℚ)) : ℚ × ℚ :=
  ((points.map Prod.fst).sum / points.length,
   (points.map Prod.snd).sum / points.length)

/-- `findCentroid` (audioEngine.ts): throws on an empty array, otherwise
returns the unweighted mean of the coordinates. -/
def findCentroid (points : List (ℚ × ℚ)) : Except String (ℚ × ℚ) :=
  if points.isEmpty then .error "Cannot find centroid of empty array"
  else .ok (centroidOf points)

/-- `generatePhantomCoordinates` (audioEngine.ts).  `r1` is the first
`Math.random()` outcome drawn by the executed branch (the jitter draw in
the empty-anchor branch, the perpendicular-scale draw otherwise); `r2`
is the second draw (the dimensional-drift draw of the anchored branch). -/
def generatePhantomCoordinates (userPos : Position) (articles : List WikiArticle)
    (r1 r2 : ℚ) : PhantomCoords :=
  if articles.length = 0 then
    -- No articles - phantom is near user with drift
    let drift := (r1 - 0.5) * 0.001
    { lat := userPos.latitude + drift
      lon := userPos.longitude + drift
      dimensionalDrift := |drift| * 1000 }
  else
    -- Find centroid of all articles
    let articleCentroid := centroidOf (articles.map fun a => (a.lat, a.lon))
    let deltaLat := articleCentroid.1 - userPos.latitude
    let deltaLon := articleCentroid.2 - userPos.longitude
    -- Phantom location is between user and centroid, offset perpendicular
    let midLat := userPos.latitude + deltaLat * 0.3
    let midLon := userPos.longitude + deltaLon * 0.3
    -- Add perpendicular offset (rotate 90 degrees) with randomness
    let perpScale := 0.0003 * (r1 + 0.5)
    let phantomLat := midLat + deltaLon * perpScale
    let phantomLon := midLon - deltaLat * perpScale
    -- Add "dimensional drift" - slight unreality
    let drift := (r2 - 0.5) * 0.0001
    { lat := phantomLat + drift
      lon := phantomLon + drift
      dimensionalDrift := |drift| * 10000 }

/-- `createPhantomLocation` (latentEngine module): phantom coordinates
plus the titles of the first five anchors. -/
def createPhantomLocation (userPos : Position) (articles : List WikiArticle)
    (r1 r2 : ℚ) : PhantomLocation :=
  let coords := generatePhantomCoordinates userPos articles r1 r2
  { lat := coords.lat
    lon := coords.lon
    dimensionalDrift := coords.dimensionalDrift
    anchors := (articles.take 5).map (·.title) }

/-- `shouldTriggerGeneration` (latentEngine module).  `now` is the
`Date.now()` reading; `lastGeneratedAt` is nullable.  The JavaScript
truthiness tests `lastGeneratedAt && …` and `!lastGeneratedAt` treat a
stored 0 exactly like null, which this embedding preserves. -/
def shouldTriggerGeneration (now : ℤ) (lastGeneratedAt : Option ℤ)
    (intervalMs : ℤ) (articlesChanged : Bool) : Bool :=
  if articlesChanged then
    -- But not if we just generated
    match lastGeneratedAt with
    | some t => if t ≠ 0 ∧ now - t < 10000 then false else true
    | none => true
  else
    -- Time-based trigger
    match lastGeneratedAt with
    | some t => if t = 0 then true else decide (intervalMs ≤ now - t)
    | none => true

/-- Reference trigger policy, written from the specification's words:
if the anchor set changed significantly, permit unless a generation
completed within the last 10,000 ms; else permit when no generation has
ever happened; else permit iff the configured interval has elapsed. -/
def specShouldTrigger (now : ℤ) (lastGeneratedAt : Option ℤ)
    (intervalMs : ℤ) (articlesChanged : Bool) : Bool :=
  if articlesChanged then
    match lastGeneratedAt with
    | some t => decide (10000 ≤ now - t)
    | none => true
  else
    match lastGeneratedAt with
    | some t => decide (intervalMs ≤ now - t)
    | none => true

/-- `haveArticlesChanged` (latentEngine module).  The JavaScript `Set`
of the top-3 page ids is modelled by deduplicating the id list; counting
over the set becomes `countP` over the deduplicated list. -/
def haveArticlesChanged (oldArticles newArticles : List WikiArticle) : Bool :=
  if oldArticles.length = 0 ∧ newArticles.length = 0 then false
  else if 2 ≤ ((oldArticles.length : ℤ) - newArticles.length).natAbs then true
  else
    -- Check if the closest articles have changed
    let oldIds := (oldArticles.take 3).map (·.pageid)
    let newIds := ((newArticles.take 3).map (·.pageid)).dedup
    decide (2 ≤ newIds.countP (fun id => ¬ oldIds.contains id))

/-- Reference change detector, written from the specification's words:
false when both sets are empty; true when the sizes differ by at least
2; otherwise true iff at least 2 of the identifiers of the first three
new anchors are not among the identifiers of the first three old ones. -/
def specHaveArticlesChanged (oldArticles newArticles : List WikiArticle) : Bool :=
  if oldArticles = [] ∧ newArticles = [] then false
  else if 2 ≤ ((oldArticles.length : ℤ) - newArticles.length).natAbs then true
  else
    let oldTop := (oldArticles.take 3).map (·.pageid)
    let newTop := ((newArticles.take 3).map (·.pageid)).dedup
    decide (2 ≤ (newTop.filter (fun id => decide (id ∉ oldTop))).length)

/-! Trigonometric geo math (audioEngine.ts / coordinates module),
modelled over ℝ.  `Math.atan2` is embedded by its standard piecewise
definition in terms of `arctan`; the JavaScript remainder operator `%`
truncates the quotient toward zero; `Math.round` is floor of x + 1/2. -/

/-- Mean Earth radius in meters (audioEngine.ts `EARTH_RADIUS`). -/
def EARTH_RADIUS : ℝ := 6371000

/-- `toRadians` (audioEngine.ts). -/
noncomputable def toRadians (degrees : ℝ) : ℝ := degrees * (Real.pi / 180)

/-- `toDegrees` (audioEngine.ts). -/
noncomputable def toDegrees (radians : ℝ) : ℝ := radians * (180 / Real.pi)

/-- `Math.atan2(y, x)`: the piecewise arctangent with range (-π, π]. -/
noncomputable def atan2 (y x : ℝ) : ℝ :=
  if 0 < x then Real.arctan (y / x)
  else if x < 0 ∧ 0 ≤ y then Real.arctan (y / x) + Real.pi
  else if x < 0 ∧ y < 0 then Real.arctan (y / x) - Real.pi
  else if x = 0 ∧ 0 < y then Real.pi / 2
  else if x = 0 ∧ y < 0 then -(Real.pi / 2)
  else 0

/-- Truncation toward zero, as JavaScript's remainder uses. -/
noncomputable def realTrunc (x : ℝ) : ℝ := if 0 ≤ x then (⌊x⌋ : ℝ) else -(⌊-x⌋ : ℝ)

/-- The JavaScript remainder `a % b` on numbers: `a - b * trunc(a / b)`. -/
noncomputable def jsFmod (a b : ℝ) : ℝ := a - b * realTrunc (a / b)

/-- `Math.round`: the nearest integer, half-way cases toward +∞. -/
noncomputable def jsRound (x : ℝ) : ℤ := ⌊x + 1/2⌋

/-- `calculateDistance` (audioEngine.ts): haversine distance in
meters. -/
noncomputable def calculateDistance (lat1 lon1 lat2 lon2 : ℝ) : ℝ :=
  let dLat := toRadians (lat2 - lat1)
  let dLon := toRadians (lon2 - lon1)
  let a := Real.sin (dLat / 2) * Real.sin (dLat / 2) +
    Real.cos (toRadians lat1) * Real.cos (toRadians lat2) *
      Real.sin (dLon / 2) * Real.sin (dLon / 2)
  let c := 2 * atan2 (Real.sqrt a) (Real.sqrt (1 - a))
  EARTH_RADIUS * c

/-- `calculateBearing` (audioEngine.ts): forward azimuth normalized by
`(bearing + 360) % 360`. -/
noncomputable def calculateBearing (lat1 lon1 lat2 lon2 : ℝ) : ℝ :=
  let dLon := toRadians (lon2 - lon1)
  let lat1Rad := toRadians lat1
  let lat2Rad := toRadians lat2
  let y := Real.sin dLon * Real.cos lat2Rad
  let x := Real.cos lat1Rad * Real.sin lat2Rad -
    Real.sin lat1Rad * Real.cos lat2Rad * Real.cos dLon
  let bearing := toDegrees (atan2 y x)
  jsFmod (bearing + 360) 360

/-- `BearingInfo` (types used by `getBearingInfo`). -/
structure BearingInfo where
  bearing : ℝ
  distance : ℚ
  direction : String

/-- The eight compass labels of `getBearingInfo`. -/
def directions : List String := ["N", "NE", "E", "SE", "S", "SW", "W", "NW"]

/-- The `directions[Math.round(bearing / 45) % 8]` lookup of
`getBearingInfo`; a JavaScript out-of-bounds index would read
`undefined`. -/
noncomputable def bearingDirection (bearing : ℝ) : String :=
  let index := (jsRound (bearing / 45)).tmod 8
  if 0 ≤ index then directions.getD index.toNat "undefined" else "undefined"

/-- `getBearingInfo` (audioEngine.ts). -/
noncomputable def getBearingInfo (userPos : Position) (article : WikiArticle) :
    BearingInfo :=
  let bearing := calculateBearing (userPos.latitude : ℝ) (userPos.longitude : ℝ)
    (article.lat : ℝ) (article.lon : ℝ)
  { bearing := bearing
    distance := article.dist
    direction := bearingDirection bearing }

/-! Prompt post-processing (`cleanTransmission`, prompts module).
Strings are handled as character lists; the two anchored
meta-commentary regexes are modelled by explicit prefix matching.  For
each alternation or optional element of the patterns, committing to the
greedy choice is equivalent to full backtracking because the directly
following required token (a space, or the literal `transmission`) can
never match the text the greedy choice consumed. -/

/-- Whitespace recognized by JavaScript's `trim` and `\s` (the
characters relevant to this code base). -/
def isJsWhitespace (c : Char) : Bool :=
  c = ' ' || c = '\t' || c = '\n' || c = '\r' || c = '\x0b' || c = '\x0c' || c = '\u00A0'

/-- `text.trim()`: whitespace removed from both ends. -/
def jsTrim (l : List Char) : List Char :=
  ((l.dropWhile isJsWhitespace).reverse.dropWhile isJsWhitespace).reverse

/-- The quote-unwrapping step of `cleanTransmission`: one layer of
matching double or single quotes is removed (`slice(1, -1)`). -/
def stripWrappingQuotes (l : List Char) : List Char :=
  if (l.head? = some '"' ∧ l.getLast? = some '"') ∨
      (l.head? = some '\'' ∧ l.getLast? = some '\'') then
    (l.drop 1).dropLast
  else l

/-- Case-insensitive literal prefix match (the patterns carry the `i`
flag); `pat` is given lowercase.  Returns the remainder on success. -/
def matchCI (pat : List Char) (l : List Char) : Option (List Char) :=
  if (l.take pat.length).map Char.toLower = pat then some (l.drop pat.length) else none

/-- First alternative of a regex alternation that matches a prefix. -/
def firstMatchCI (pats : List (List Char)) (l : List Char) : Option (List Char) :=
  match pats with
  | [] => none
  | p :: rest =>
    match matchCI p l with
    | some r => some r
    | none => firstMatchCI rest l

/-- Greedy optional group: strip the first matching alternative if any,
else leave the text unchanged. -/
def dropOptionalCI (pats : List (List Char)) (l : List Char) : List Char :=
  (firstMatchCI pats l).getD l

/-- Shared tail of both meta-commentary patterns: the optional colon
`:?` followed by greedy trailing whitespace `\s*`. -/
def afterTransmissionTail (l : List Char) : List Char :=
  (if l.head? = some ':' then l.drop 1 else l).dropWhile isJsWhitespace

/-- The alternatives generated by `(here'?s?|this is|my)` in the regex
engine's preference order (both optional quantifiers greedy). -/
def metaLeadKeywords : List (List Char) :=
  ["here's".toList, "here'".toList, "heres".toList, "here".toList,
   "this is".toList, "my".toList]

/-- Anchored match of `/^(here'?s?|this is|my) (a |the )?transmission:?\s*/i`:
returns the text after the matched prefix, or none when the pattern
does not match at the start. -/
def matchMetaPhrase1 (l : List Char) : Option (List Char) :=
  match firstMatchCI metaLeadKeywords l with
  | none => none
  | some l1 =>
    match l1 with
    | ' ' :: l2 =>
      let l3 := dropOptionalCI ["a ".toList, "the ".toList] l2
      match matchCI "transmission".toList l3 with
      | none => none
      | some l4 => some (afterTransmissionTail l4)
    | _ => none

/-- Anchored match of `/^transmission:?\s*/i`. -/
def matchMetaPhrase2 (l : List Char) : Option (List Char) :=
  match matchCI "transmission".toList l with
  | none => none
  | some l4 => some (afterTransmissionTail l4)

/-- `cleaned.replace(pattern, '')` for an anchored pattern: the matched
prefix is removed when the pattern matches, else the text is kept. -/
def replaceAnchored (f : List Char → Option (List Char)) (l : List Char) : List Char :=
  match f l with
  | some r => r
  | none => l

/-- The terminal-punctuation test `/[.!?"]$/`. -/
def endsInTerminal (l : List Char) : Bool :=
  match l.getLast? with
  | some c => c = '.' || c = '!' || c = '?' || c = '"'
  | none => false

/-- The final step of `cleanTransmission`: append `'.'` when the text
does not already end in terminal punctuation. -/
def ensureTerminal (l : List Char) : List Char :=
  if endsInTerminal l then l else l ++ ['.']

/-- `cleanTransmission` (prompts module): trim, unwrap quotes, strip the
two meta-commentary patterns in order, ensure terminal punctuation. -/
def cleanTransmission (text : String) : String :=
  let cleaned := jsTrim text.toList
  let cleaned := stripWrappingQuotes cleaned
  let cleaned := replaceAnchored matchMetaPhrase1 cleaned
  let cleaned := replaceAnchored matchMetaPhrase2 cleaned
  String.mk (ensureTerminal cleaned)

/-! Transmission assembly (latentEngine module) and prompt construction
(prompts module).  The asynchronous, fallible LLM call `generateText`
is passed in as an `Except`-valued collaborator, and the Dexie
persistence store behind `saveTransmission` is modelled as an explicit
list of saved records threaded through the call (`add` appends and
returns the auto-incremented key). -/

/-- `TransmissionStyle` (types.ts). -/
inductive TransmissionStyle where
  | fragment
  | catalog
  | field_note
  | signal
  | whisper
deriving DecidableEq, Repr

/-- Inline `{ lat, lon }` coordinate pair of `TransmissionLog`. -/
structure CoordPair where
  lat : ℚ
  lon : ℚ
deriving DecidableEq, Repr

/-- `TransmissionLog` (types.ts). -/
structure TransmissionLog where
  id : Option ℤ
  timestamp : String
  userCoordinates : CoordPair
  phantomCoordinates : CoordPair
  nearbyAnchors : List String
  transmission : String
  voiceProfile : String
  style : TransmissionStyle
deriving DecidableEq, Repr

/-- `LatentGenerationResult` (latentEngine module). -/
structure LatentGenerationResult where
  transmission : TransmissionLog
  phantom : PhantomLocation
deriving DecidableEq, Repr

/-- `selectRandomStyle` (prompts module): a uniform pick driven by one
`Math.random()` outcome, `styles[Math.floor(r * 5)]`. -/
def selectRandomStyle (r : ℚ) : TransmissionStyle :=
  let styles : List TransmissionStyle :=
    [.fragment, .catalog, .field_note, .signal, .whisper]
  styles.getD (⌊r * 5⌋).toNat .fragment

/-- `SYSTEM_PROMPT` (prompts module). -/
def SYSTEM_PROMPT : String :=
  "You are a receiver tuned to frequencies from adjacent dimensions. You intercept transmissions from places that almost exist—the spaces between documented reality. Your reports are brief, evocative, and slightly wrong in unsettling ways.\n\nGuidelines:\n- Generate 2-4 sentences only\n- Describe what exists at the phantom location, not at the documented places\n- Be specific but impossible—concrete details about unreal things\n- Maintain a tone of clinical observation mixed with subtle wrongness\n- Never explain or meta-comment—just report\n- Avoid clichés about ghosts, portals, or standard supernatural tropes\n- Reference the nearby anchors obliquely—as if seen from another angle of reality"

/-- `STYLE_INSTRUCTIONS` (prompts module), as the exhaustive mapping
from styles to instruction strings. -/
def styleInstructionsFor (style : TransmissionStyle) : String :=
  match style with
  | .fragment => "Style: Fragmentary field note. Incomplete sentences. Data corruption evident. Mid-observation interruption."
  | .catalog => "Style: Catalog entry from an impossible museum. Clinical documentation of an artifact or phenomenon. Include classification numbers that shouldn't exist."
  | .field_note => "Style: Surveyor's field note. Technical observations of geography that contradicts itself. Measurements that don't add up."
  | .signal => "Style: Intercepted radio transmission. Partial. Static-damaged. Someone reporting coordinates they shouldn't be at."
  | .whisper => "Style: Whispered memory. First-person observation. The speaker isn't sure they're real. Past and present tense blur."

/-- Zero-pad a digit string on the left to the requested width. -/
def padZeros (s : String) (width : ℕ) : String :=
  String.mk (List.replicate (width - s.length) '0') ++ s

/-- `q.toFixed(digits)` on an exact rational: round half away from
zero to the given number of decimals and print with a fixed-width
fractional part. -/
def qToFixed (q : ℚ) (digits : ℕ) : String :=
  let sign := if q < 0 then "-" else ""
  let scaled : ℤ := ⌊|q| * (10 : ℚ) ^ digits + 1/2⌋
  let a := scaled.toNat
  let ip := a / 10 ^ digits
  let fp := a % 10 ^ digits
  if digits = 0 then sign ++ toString ip
  else sign ++ toString ip ++ "." ++ padZeros (toString fp) digits

/-- `Math.round` on an exact rational. -/
def qRound (q : ℚ) : ℤ := ⌊q + 1/2⌋

/-- `formatCoordinates` (audioEngine.ts / coordinates module). -/
def formatCoordinates (lat lon : ℚ) : String :=
  let latDir := if 0 ≤ lat then "N" else "S"
  let lonDir := if 0 ≤ lon then "E" else "W"
  qToFixed |lat| 4 ++ "° " ++ latDir ++ ", " ++ qToFixed |lon| 4 ++ "° " ++ lonDir

/-- `constructPrompt` (prompts module): anchor descriptions (taking the
JavaScript `||` fallback for an empty join), coordinates, drift, and
style instructions spliced into the template. -/
noncomputable def constructPrompt (userPos : Position) (articles : List WikiArticle)
    (phantom : PhantomLocation) (style : TransmissionStyle) : String :=
  let anchorDescriptions := String.intercalate "\n"
    ((articles.take 5).map fun article =>
      let bearingInfo := getBearingInfo userPos article
      "- \"" ++ article.title ++ "\" (" ++ toString (qRound bearingInfo.distance) ++
        "m " ++ bearingInfo.direction ++ ")")
  let phantomCoords := formatCoordinates phantom.lat phantom.lon
  let userCoords := formatCoordinates userPos.latitude userPos.longitude
  let styleInstructions := styleInstructionsFor style
  SYSTEM_PROMPT ++ "\n\nNearby anchors in consensus reality:\n" ++
    (if anchorDescriptions = "" then "- [No documented locations in range]"
     else anchorDescriptions) ++
    "\n\nObserver position: " ++ userCoords ++
    "\nPhantom coordinates: " ++ phantomCoords ++
    "\nDimensional drift: " ++ qToFixed phantom.dimensionalDrift 4 ++ "°" ++
    "\n\nYou are located in the space BETWEEN these documented places. Generate a brief transmission (2-4 sentences) describing what exists at your phantom location—something adjacent to but distinct from the documented anchors. This is not summary. This is interstitial. Speak as if reporting from a place that almost exists." ++
    "\n\n" ++ styleInstructions ++ "\n\nTransmission:"

/-- `constructEmptySpacePrompt` (prompts module). -/
def constructEmptySpacePrompt (_userPos : Position) (phantom : PhantomLocation)
    (style : TransmissionStyle) : String :=
  let phantomCoords := formatCoordinates phantom.lat phantom.lon
  let styleInstructions := styleInstructionsFor style
  SYSTEM_PROMPT ++
    "\n\nNo documented locations detected within range. You are in undocumented space—a gap in the map where nothing is officially recorded." ++
    "\n\nPhantom coordinates: " ++ phantomCoords ++
    "\nDimensional drift: " ++ qToFixed phantom.dimensionalDrift 4 ++ "°" ++
    "\n\nThis absence is significant. Generate a brief transmission (2-4 sentences) describing what exists in this cartographic void—the things that persist specifically because no one has documented them." ++
    "\n\n" ++ styleInstructions ++ "\n\nTransmission:"

/-- The prompt selection of `generateTransmission`: the anchored prompt
when articles are present, the empty-space prompt otherwise. -/
noncomputable def transmissionPrompt (userPos : Position) (articles : List WikiArticle)
    (phantom : PhantomLocation) (selectedStyle : TransmissionStyle) : String :=
  if 0 < articles.length then constructPrompt userPos articles phantom selectedStyle
  else constructEmptySpacePrompt userPos phantom selectedStyle

/-- `saveTransmission` (database.ts): `db.transmissions.add` with an
auto-incremented primary key, returning the new id. -/
def saveTransmission (transmission : TransmissionLog) (db : List TransmissionLog) :
    ℤ × List TransmissionLog :=
  let id : ℤ := db.length + 1
  (id, db ++ [{ transmission with id := some id }])

/-- `generateTransmission` (latentEngine module).  `generateText` is the
fallible LLM collaborator; `rStyle`, `r1`, `r2` are the `Math.random()`
outcomes; `timestamp` is the `new Date().toISOString()` reading; `db`
is the persistence store's state.  A rejected `generateText` promise
propagates, leaving the store untouched. -/
noncomputable def generateTransmission
    (generateText : String → Except String String)
    (userPos : Position) (articles : List WikiArticle)
    (style : Option TransmissionStyle)
    (rStyle r1 r2 : ℚ) (timestamp : String) (db : List TransmissionLog) :
    Except String LatentGenerationResult × List TransmissionLog :=
  let selectedStyle := style.getD (selectRandomStyle rStyle)
  let phantom := createPhantomLocation userPos articles r1 r2
  let prompt := transmissionPrompt userPos articles phantom selectedStyle
  match generateText prompt with
  | .error e => (.error e, db)
  | .ok rawText =>
    let cleanedText := cleanTransmission rawText
    let transmission : TransmissionLog :=
      { id := none
        timestamp := timestamp
        userCoordinates := ⟨userPos.latitude, userPos.longitude⟩
        phantomCoordinates := ⟨phantom.lat, phantom.lon⟩
        nearbyAnchors := phantom.anchors
        transmission := cleanedText
        voiceProfile := "default"
        style := selectedStyle }
    let saved := saveTransmission transmission db
    (.ok { transmission := { transmission with id := some saved.1 }, phantom := phantom },
      saved.2)

end Drift

namespace Drift

set_option linter.unnecessarySeqFocus false

/-- Whatever `ensureTerminal` returns ends in terminal punctuation. -/
theorem endsInTerminal_ensureTerminal (l : List Char) :
    endsInTerminal (ensureTerminal l) = true := by
  unfold ensureTerminal
  by_cases h : endsInTerminal l = true
  · simp [h]
  · simp only [h, if_false, Bool.false_eq_true, if_neg, ite_false]
    unfold endsInTerminal
    rw [List.getLast?_concat]
    simp

/-- Branch evaluation: `generatePhantomCoordinates` on an empty anchor
list. -/
theorem generatePhantomCoordinates_nil (pos : Position) (r1 r2 : ℚ) :
    generatePhantomCoordinates pos [] r1 r2 =
      { lat := pos.latitude + (r1 - 0.5) * 0.001
        lon := pos.longitude + (r1 - 0.5) * 0.001
        dimensionalDrift := |(r1 - 0.5) * 0.001| * 1000 } := by
  simp [generatePhantomCoordinates]

/-- Branch evaluation: `generatePhantomCoordinates` on a nonempty anchor
list. -/
theorem generatePhantomCoordinates_ne_nil (pos : Position)
    (articles : List WikiArticle) (hne : articles ≠ []) (r1 r2 : ℚ) :
    generatePhantomCoordinates pos articles r1 r2 =
      { lat := pos.latitude +
          ((centroidOf (articles.map fun a => (a.lat, a.lon))).1 - pos.latitude) * 0.3 +
          ((centroidOf (articles.map fun a => (a.lat, a.lon))).2 - pos.longitude) *
            (0.0003 * (r1 + 0.5)) +
          (r2 - 0.5) * 0.0001
        lon := pos.longitude +
          ((centroidOf (articles.map fun a => (a.lat, a.lon))).2 - pos.longitude) * 0.3 -
          ((centroidOf (articles.map fun a => (a.lat, a.lon))).1 - pos.latitude) *
            (0.0003 * (r1 + 0.5)) +
          (r2 - 0.5) * 0.0001
        dimensionalDrift := |(r2 - 0.5) * 0.0001| * 10000 } := by
  have hlen : ¬ articles.length = 0 := by
    simpa [List.length_eq_zero] using hne
  simp [generatePhantomCoordinates, hlen]

/-- C2 counterexample: with a recorded generation time of exactly 0 and
`now = 5000`, a significant anchor change is permitted by the code (the
JavaScript truthiness test skips the cool-down) although the reference
definition denies it (a generation completed 5,000 ms ago). -/
theorem shouldTriggerGeneration_cex :
    shouldTriggerGeneration 5000 (some 0) 100000 true = true ∧
      specShouldTrigger 5000 (some 0) 100000 true = false := by
  constructor <;> rfl

/-- C2 (amended): `shouldTriggerGeneration` equals the reference trigger
definition after a stored `lastGeneratedAt` of exactly 0 is replaced by
"absent" — JavaScript falsiness makes the code treat a zero timestamp
like null in both the cool-down test and the first-ever-trigger test;
on every other input the two definitions agree, and with
`lastGeneratedAt` absent the code always permits. -/
theorem shouldTriggerGeneration_matches_spec_up_to_zero (now : ℤ)
    (lastGeneratedAt : Option ℤ) (intervalMs : ℤ) (articlesChanged : Bool) :
    shouldTriggerGeneration now lastGeneratedAt intervalMs articlesChanged =
      specShouldTrigger now (if lastGeneratedAt = some 0 then none else lastGeneratedAt)
        intervalMs articlesChanged := by
  cases lastGeneratedAt with
  | none => cases articlesChanged <;> simp [shouldTriggerGeneration, specShouldTrigger]
  | some t =>
    cases articlesChanged <;>
      by_cases ht : t = 0 <;>
        simp [shouldTriggerGeneration, specShouldTrigger, ht] <;>
        simp only [← decide_not, decide_eq_decide] <;>
        omega

/-- Counting ids outside a list over a `Set`-style deduplicated list is
the same as filtering the deduplicated list by non-membership. -/
theorem countP_not_contains_eq_filter (oldIds newIds : List ℤ) :
    newIds.countP (fun id => ¬ oldIds.contains id) =
      (newIds.filter (fun id => decide (id ∉ oldIds))).length := by
  rw [List.countP_eq_length_filter]
  congr 1
  apply List.filter_congr
  intro x _
  simp

/-- No identifier of a list counts as missing from that same list. -/
theorem countP_dedup_self (l : List ℤ) :
    l.dedup.countP (fun id => ¬ l.contains id) = 0 := by
  rw [List.countP_eq_zero]
  intro a ha
  simp at ha ⊢
  exact ha

/-- C4: `haveArticlesChanged` coincides with the reference definition —
false when both lists are empty, true when the lengths differ by at
least 2, and otherwise true iff at least 2 of the (distinct)
identifiers of the first three new anchors are missing from the first
three old ones — and in particular it returns false when given the same
anchor list twice. -/
theorem haveArticlesChanged_matches_spec :
    (∀ oldArticles newArticles : List WikiArticle,
        haveArticlesChanged oldArticles newArticles =
          specHaveArticlesChanged oldArticles newArticles) ∧
      ∀ l : List WikiArticle, haveArticlesChanged l l = false := by
  constructor
  · intro oldArticles newArticles
    simp only [haveArticlesChanged, specHaveArticlesChanged, List.length_eq_zero,
      countP_not_contains_eq_filter]
  · intro l
    simp only [haveArticlesChanged, countP_dedup_self]
    split_ifs with h1 h2
    · rfl
    · exfalso
      simp at h2
    · rfl

/-- `atan2` takes values in (-π, π]. -/
theorem atan2_mem (y x : ℝ) : -Real.pi < atan2 y x ∧ atan2 y x ≤ Real.pi := by
  have hpi := Real.pi_pos
  have hlt := Real.arctan_lt_pi_div_two (y / x)
  have hgt := Real.neg_pi_div_two_lt_arctan (y / x)
  unfold atan2
  split_ifs with h1 h2 h3 h4 h5
  · constructor <;> linarith
  · have hyx : y / x ≤ 0 := div_nonpos_iff.mpr (Or.inl ⟨h2.2, h2.1.le⟩)
    have : Real.arctan (y / x) ≤ 0 := by
      calc Real.arctan (y / x) ≤ Real.arctan 0 := Real.arctan_strictMono.monotone hyx
        _ = 0 := Real.arctan_zero
    constructor <;> linarith
  · have hyx : 0 < y / x := div_pos_iff.mpr (Or.inr ⟨h3.2, h3.1⟩)
    have : 0 < Real.arctan (y / x) := by
      calc (0:ℝ) = Real.arctan 0 := Real.arctan_zero.symm
        _ < Real.arctan (y / x) := Real.arctan_strictMono hyx
    constructor <;> linarith
  · constructor <;> linarith
  · constructor <;> linarith
  · constructor <;> linarith

/-- `toDegrees` maps (-π, π] into (-180, 180]. -/
theorem toDegrees_mem (s : ℝ) (h1 : -Real.pi < s) (h2 : s ≤ Real.pi) :
    -180 < toDegrees s ∧ toDegrees s ≤ 180 := by
  have hpi := Real.pi_pos
  have hq : (0:ℝ) < 180 / Real.pi := by positivity
  have hcancel : Real.pi * (180 / Real.pi) = 180 := by
    field_simp
  constructor
  · have := mul_lt_mul_of_pos_right h1 hq
    unfold toDegrees
    nlinarith
  · have := mul_le_mul_of_nonneg_right h2 hq.le
    unfold toDegrees
    nlinarith

/-- The normalizing remainder `(bearing + 360) % 360` lands in
[0, 360) for the inputs the bearing formula can produce. -/
theorem jsFmod360_bounds (a : ℝ) (h1 : 180 < a) (h2 : a ≤ 540) :
    0 ≤ jsFmod a 360 ∧ jsFmod a 360 < 360 := by
  have hpos : (0:ℝ) ≤ a / 360 := by positivity
  have htr : realTrunc (a / 360) = (⌊a / 360⌋ : ℝ) := if_pos hpos
  by_cases hc : a < 360
  · have hfl : ⌊a / 360⌋ = 0 := by
      rw [Int.floor_eq_zero_iff]
      constructor
      · exact hpos
      · rw [div_lt_one (by norm_num : (0:ℝ) < 360)]
        exact hc
    unfold jsFmod
    rw [htr, hfl]
    norm_num
    constructor <;> linarith
  · push_neg at hc
    have hfl : ⌊a / 360⌋ = 1 := by
      rw [Int.floor_eq_iff]
      constructor
      · push_cast
        rw [le_div_iff₀ (by norm_num : (0:ℝ) < 360)]
        linarith
      · push_cast
        rw [div_lt_iff₀ (by norm_num : (0:ℝ) < 360)]
        linarith
    unfold jsFmod
    rw [htr, hfl]
    constructor <;> push_cast <;> linarith

/-- For a bearing in [0, 360) the compass lookup stays inside the
eight-label table, and bearings of at least 337.5 round to index 8,
which wraps to "N". -/
theorem bearingDirection_mem (b : ℝ) (h0 : 0 ≤ b) (h1 : b < 360) :
    bearingDirection b ∈ directions ∧ (b < 337.5 ∨ bearingDirection b = "N") := by
  have hr0 : 0 ≤ jsRound (b / 45) := by
    unfold jsRound
    rw [Int.le_floor]
    push_cast
    positivity
  have hr1 : jsRound (b / 45) ≤ 8 := by
    unfold jsRound
    have : ⌊b / 45 + 1/2⌋ < 9 := by
      rw [Int.floor_lt]
      push_cast
      have : b / 45 < 8 := by
        rw [div_lt_iff₀ (by norm_num : (0:ℝ) < 45)]
        linarith
      linarith
    omega
  have htm : (jsRound (b / 45)).tmod 8 = (jsRound (b / 45)) % 8 := by
    rw [Int.tmod_eq_emod hr0 (by norm_num)]
  have hm0 : 0 ≤ (jsRound (b / 45)) % 8 := Int.emod_nonneg _ (by norm_num)
  have hm1 : (jsRound (b / 45)) % 8 < 8 := Int.emod_lt_of_pos _ (by norm_num)
  constructor
  · unfold bearingDirection
    rw [htm, if_pos hm0]
    set n := ((jsRound (b / 45)) % 8).toNat with hn
    have : n < 8 := by omega
    interval_cases n <;> decide
  · by_cases hb : b < 337.5
    · exact Or.inl hb
    · right
      push_neg at hb
      have hfl : jsRound (b / 45) = 8 := by
        unfold jsRound
        rw [Int.floor_eq_iff]
        constructor
        · push_cast
          have : (7.5:ℝ) ≤ b / 45 := by
            rw [le_div_iff₀ (by norm_num : (0:ℝ) < 45)]
            linarith
          linarith
        · push_cast
          have : b / 45 < 8 := by
            rw [div_lt_iff₀ (by norm_num : (0:ℝ) < 45)]
            linarith
          linarith
      unfold bearingDirection
      rw [hfl]
      decide

/-- `calculateBearing` always lands in [0, 360). -/
theorem calculateBearing_mem (lat1 lon1 lat2 lon2 : ℝ) :
    0 ≤ calculateBearing lat1 lon1 lat2 lon2 ∧
      calculateBearing lat1 lon1 lat2 lon2 < 360 := by
  unfold calculateBearing
  dsimp only
  set s := atan2 (Real.sin (toRadians (lon2 - lon1)) * Real.cos (toRadians lat2))
    (Real.cos (toRadians lat1) * Real.sin (toRadians lat2) -
      Real.sin (toRadians lat1) * Real.cos (toRadians lat2) *
        Real.cos (toRadians (lon2 - lon1))) with hs
  have hmem := atan2_mem (Real.sin (toRadians (lon2 - lon1)) * Real.cos (toRadians lat2))
    (Real.cos (toRadians lat1) * Real.sin (toRadians lat2) -
      Real.sin (toRadians lat1) * Real.cos (toRadians lat2) *
        Real.cos (toRadians (lon2 - lon1)))
  rw [← hs] at hmem
  have hdeg := toDegrees_mem s hmem.1 hmem.2
  exact jsFmod360_bounds _ (by linarith [hdeg.1]) (by linarith [hdeg.2])

/-- Halving and negating the angle difference flips the sign of the
sine. -/
theorem sin_half_swap (u v : ℝ) :
    Real.sin (toRadians (u - v) / 2) = -Real.sin (toRadians (v - u) / 2) := by
  have h : toRadians (u - v) = -toRadians (v - u) := by
    unfold toRadians; ring
  rw [h, neg_div, Real.sin_neg]

/-- C5 counterexample: the longitudes 0 and 360 denote distinct
coordinate values, yet the haversine formula gives distance 0 between
(0, 0) and (0, 360) — "zero only if the coordinates are equal" fails. -/
theorem calculateDistance_zero_cex :
    calculateDistance 0 0 0 360 = 0 ∧ (0:ℝ) ≠ 360 := by
  constructor
  · unfold calculateDistance
    dsimp only
    have h0 : toRadians (0 - 0) = 0 := by unfold toRadians; ring
    have h1 : toRadians (360 - 0) / 2 = Real.pi := by unfold toRadians; ring
    rw [h0, h1]
    norm_num [Real.sin_pi]
    unfold atan2
    norm_num [Real.arctan_zero]
  · norm_num

/-- C5 (amended): `calculateDistance` is symmetric and vanishes on
identical coordinate pairs; the converse (zero only for identical
pairs) does not hold, because degree inputs that differ by a full turn
collapse to the same point. -/
theorem calculateDistance_symm_and_self :
    (∀ lat1 lon1 lat2 lon2 : ℝ,
        calculateDistance lat1 lon1 lat2 lon2 = calculateDistance lat2 lon2 lat1 lon1) ∧
      ∀ lat lon : ℝ, calculateDistance lat lon lat lon = 0 := by
  constructor
  · intro lat1 lon1 lat2 lon2
    unfold calculateDistance
    dsimp only
    rw [sin_half_swap lat2 lat1, sin_half_swap lon2 lon1]
    ring_nf
  · intro lat lon
    unfold calculateDistance
    dsimp only
    have h0 : toRadians (lat - lat) = 0 := by unfold toRadians; ring
    have h1 : toRadians (lon - lon) = 0 := by unfold toRadians; ring
    rw [h0, h1]
    norm_num
    unfold atan2
    norm_num [Real.arctan_zero]

/-- C10: for every observer position and anchor, `getBearingInfo`
returns a bearing in [0, 360) and a direction drawn from the eight
compass labels; bearings of 337.5 and above (hence those just below
360) wrap around to "N". -/
theorem getBearingInfo_direction_valid (userPos : Position) (article : WikiArticle) :
    0 ≤ (getBearingInfo userPos article).bearing ∧
      (getBearingInfo userPos article).bearing < 360 ∧
      (getBearingInfo userPos article).direction ∈
        ["N", "NE", "E", "SE", "S", "SW", "W", "NW"] ∧
      ((getBearingInfo userPos article).bearing < 337.5 ∨
        (getBearingInfo userPos article).direction = "N") := by
  have hb := calculateBearing_mem (userPos.latitude : ℝ) (userPos.longitude : ℝ)
    (article.lat : ℝ) (article.lon : ℝ)
  have hd := bearingDirection_mem _ hb.1 hb.2
  exact ⟨hb.1, hb.2, hd.1, hd.2⟩

/-- C7: `cleanTransmission` always returns text ending in one of the
terminal characters accepted by the code's `[.!?"]` test (appending '.'
when missing); stripping the wrapping quotes keeps the inner
punctuation, so '"Hello."' becomes 'Hello.', and bare text 'some text'
gains a final period. -/
theorem cleanTransmission_spec :
    (∀ text : String, endsInTerminal (cleanTransmission text).toList = true) ∧
      cleanTransmission "\"Hello.\"" = "Hello." ∧
      cleanTransmission "some text" = "some text." := by
  refine ⟨?_, by decide, by decide⟩
  intro text
  unfold cleanTransmission
  exact endsInTerminal_ensureTerminal _

/-- C1 counterexample: at observer (0, 0) with no anchors and a random
draw of exactly 0.5, the jitter `(0.5 - 0.5) * 0.001` vanishes and the
synthesized phantom's coordinates are exactly the observer's. -/
theorem phantomCoordinates_eq_observer_cex :
    (generatePhantomCoordinates ⟨0, 0, none, 0, 0⟩ [] (1/2) 0).lat = 0 ∧
      (generatePhantomCoordinates ⟨0, 0, none, 0, 0⟩ [] (1/2) 0).lon = 0 := by
  constructor <;> norm_num [generatePhantomCoordinates]

/-- C1 (amended): the claimed non-coincidence is not universal — the
phantom coincides with the observer whenever the jitter draw is exactly
0.5 — but in the empty-anchor branch it holds for every other draw: if
the random draw differs from 0.5 the phantom's latitude and longitude
both differ from the observer's. -/
theorem phantomCoordinates_ne_observer_of_drift_ne_half (pos : Position)
    (r1 r2 : ℚ) (h : r1 ≠ 1/2) :
    (generatePhantomCoordinates pos [] r1 r2).lat ≠ pos.latitude ∧
      (generatePhantomCoordinates pos [] r1 r2).lon ≠ pos.longitude := by
  have hd : (r1 - 0.5) * 0.001 ≠ 0 := by
    intro h0
    rcases mul_eq_zero.mp h0 with h1 | h1
    · exact h (by linarith)
    · norm_num at h1
  rw [generatePhantomCoordinates_nil]
  constructor <;> · intro hc; apply hd; dsimp at hc; linarith

/-- C1 witness: the amended theorem applied at observer (0, 0) with
draw 0. -/
theorem phantomCoordinates_ne_observer_witness :
    (0 : ℚ) ≠ 1/2 ∧
      (generatePhantomCoordinates ⟨0, 0, none, 0, 0⟩ [] 0 0).lat ≠ 0 :=
  ⟨by norm_num,
   (phantomCoordinates_ne_observer_of_drift_ne_half ⟨0, 0, none, 0, 0⟩ 0 0
      (by norm_num)).1⟩

/-- C3 counterexample: at observer (0, 0) with the single anchor
(3, 3), perpendicular-scale draw 0.9 and drift draw 0.5, the code's
perpendicular scale is `0.0003 * (0.9 + 0.5) = 0.00042`, so the
phantom's latitude is `0.9 + 3 * 0.00042 = 0.90126`; no scale in the
claimed range `[0.5, 1.0) * 0.0003` can produce that point. -/
theorem perpOffset_scale_cex :
    (generatePhantomCoordinates ⟨0, 0, none, 0, 0⟩
        [⟨1, "A", 3, 3, 0, none⟩] 0.9 0.5).lat = 0.90126 ∧
      ¬ ∃ s : ℚ, 0.5 * 0.0003 ≤ s ∧ s < 1 * 0.0003 ∧
          (0.90126 : ℚ) = 0 + 3 * 0.3 + 3 * s := by
  constructor
  · norm_num [generatePhantomCoordinates, centroidOf]
  · rintro ⟨s, hs1, hs2, hs3⟩
    norm_num at hs2 hs3
    linarith

/-- C3 (amended): in the anchored branch the perpendicular offset is the
observer-to-centroid displacement rotated 90 degrees (axes swapped, one
negated), scaled by a factor whose magnitude lies in [0.5, 1.5) — not
[0.5, 1.0) — times the base scale 0.0003, added to the point 30% of the
way from observer toward centroid (the isotropic drift jitter is then
added to both axes). -/
theorem perpOffset_structure (pos : Position) (articles : List WikiArticle)
    (r1 r2 : ℚ) (hne : articles ≠ []) (h0 : 0 ≤ r1) (h1 : r1 < 1) :
    ∃ s : ℚ,
      0.5 * 0.0003 ≤ s ∧ s < 1.5 * 0.0003 ∧
      (generatePhantomCoordinates pos articles r1 r2).lat =
        pos.latitude +
          ((centroidOf (articles.map fun a => (a.lat, a.lon))).1 - pos.latitude) * 0.3 +
          ((centroidOf (articles.map fun a => (a.lat, a.lon))).2 - pos.longitude) * s +
          (r2 - 0.5) * 0.0001 ∧
      (generatePhantomCoordinates pos articles r1 r2).lon =
        pos.longitude +
          ((centroidOf (articles.map fun a => (a.lat, a.lon))).2 - pos.longitude) * 0.3 -
          ((centroidOf (articles.map fun a => (a.lat, a.lon))).1 - pos.latitude) * s +
          (r2 - 0.5) * 0.0001 := by
  refine ⟨0.0003 * (r1 + 0.5), by nlinarith, by nlinarith, ?_, ?_⟩ <;>
    rw [generatePhantomCoordinates_ne_nil pos articles hne]

/-- C3 witness: the amended theorem applied at observer (0, 0) with the
single anchor (3, 3) and draws 0 and 0.5. -/
theorem perpOffset_structure_witness :
    ([(⟨1, "A", 3, 3, 0, none⟩ : WikiArticle)] ≠ []) ∧
      ∃ s : ℚ,
        0.5 * 0.0003 ≤ s ∧ s < 1.5 * 0.0003 ∧
        (generatePhantomCoordinates ⟨0, 0, none, 0, 0⟩
            [⟨1, "A", 3, 3, 0, none⟩] 0 0.5).lat =
          (0 : ℚ) +
            ((centroidOf ([(⟨1, "A", 3, 3, 0, none⟩ : WikiArticle)].map
                fun a => (a.lat, a.lon))).1 - 0) * 0.3 +
            ((centroidOf ([(⟨1, "A", 3, 3, 0, none⟩ : WikiArticle)].map
                fun a => (a.lat, a.lon))).2 - 0) * s +
            ((0.5 : ℚ) - 0.5) * 0.0001 ∧
        (generatePhantomCoordinates ⟨0, 0, none, 0, 0⟩
            [⟨1, "A", 3, 3, 0, none⟩] 0 0.5).lon =
          (0 : ℚ) +
            ((centroidOf ([(⟨1, "A", 3, 3, 0, none⟩ : WikiArticle)].map
                fun a => (a.lat, a.lon))).2 - 0) * 0.3 -
            ((centroidOf ([(⟨1, "A", 3, 3, 0, none⟩ : WikiArticle)].map
                fun a => (a.lat, a.lon))).1 - 0) * s +
            ((0.5 : ℚ) - 0.5) * 0.0001 :=
  ⟨by decide,
   perpOffset_structure ⟨0, 0, none, 0, 0⟩ [⟨1, "A", 3, 3, 0, none⟩] 0 0.5
     (by decide) (by norm_num) (by norm_num)⟩

/-- C8: with an empty anchor list the synthesized phantom stays within
0.001 degrees of the observer in each axis (the jitter is at most
0.0005 in magnitude) and its anchor-title list is empty. -/
theorem emptyAnchors_phantom_near_observer (pos : Position) (r1 r2 : ℚ)
    (h0 : 0 ≤ r1) (h1 : r1 < 1) :
    |(createPhantomLocation pos [] r1 r2).lat - pos.latitude| ≤ 0.001 ∧
      |(createPhantomLocation pos [] r1 r2).lon - pos.longitude| ≤ 0.001 ∧
      (createPhantomLocation pos [] r1 r2).anchors = [] := by
  have hb : |(r1 - 0.5) * (0.001 : ℚ)| ≤ 0.001 := by
    rw [abs_mul]
    have h2 : |r1 - 0.5| ≤ (1 : ℚ) := by
      rw [abs_le]; constructor <;> linarith
    have h3 : |(0.001 : ℚ)| = 0.001 := by norm_num
    rw [h3]
    nlinarith
  refine ⟨?_, ?_, rfl⟩ <;>
    · simp only [createPhantomLocation, generatePhantomCoordinates_nil]
      simpa using hb

/-- C8 witness: the theorem applied at observer (0, 0) with draw 0. -/
theorem emptyAnchors_phantom_near_observer_witness :
    ((0 : ℚ) ≤ 0 ∧ (0 : ℚ) < 1) ∧
      |(createPhantomLocation ⟨0, 0, none, 0, 0⟩ [] 0 0).lat - 0| ≤ 0.001 :=
  ⟨⟨le_refl 0, by norm_num⟩,
   (emptyAnchors_phantom_near_observer ⟨0, 0, none, 0, 0⟩ 0 0
      le_rfl (by norm_num)).1⟩

/-- C9: for random draws in [0, 1) the `dimensionalDrift` returned by
`generatePhantomCoordinates` lies in [0, 0.5] — the empty-anchor branch
returns `|drift| * 1000` with `|drift| ≤ 0.0005` and the anchored
branch returns `|drift| * 10000` with `|drift| ≤ 0.00005`. -/
theorem dimensionalDrift_bounds (pos : Position) (articles : List WikiArticle)
    (r1 r2 : ℚ) (h0 : 0 ≤ r1) (h1 : r1 < 1) (h2 : 0 ≤ r2) (h3 : r2 < 1) :
    0 ≤ (generatePhantomCoordinates pos articles r1 r2).dimensionalDrift ∧
      (generatePhantomCoordinates pos articles r1 r2).dimensionalDrift ≤ 0.5 := by
  have habs : ∀ r : ℚ, 0 ≤ r → r < 1 → |r - 0.5| ≤ 0.5 := by
    intro r hr0 hr1
    rw [abs_le]; constructor <;> linarith
  by_cases hlen : articles = []
  · subst hlen
    rw [generatePhantomCoordinates_nil]
    dsimp only
    constructor
    · positivity
    · rw [abs_mul]
      have h5 : |(0.001 : ℚ)| = 0.001 := by norm_num
      rw [h5]
      nlinarith [habs r1 h0 h1]
  · rw [generatePhantomCoordinates_ne_nil pos articles hlen]
    dsimp only
    constructor
    · positivity
    · rw [abs_mul]
      have h5 : |(0.0001 : ℚ)| = 0.0001 := by norm_num
      rw [h5]
      nlinarith [habs r2 h2 h3]

/-- C6: when the LLM collaborator fails on the prompt the cycle built,
`generateTransmission` propagates exactly that failure and the
persistence store is left unchanged — no `TransmissionLog` value is
produced and `saveTransmission` contributes nothing. -/
theorem generateTransmission_error_propagates
    (generateText : String → Except String String) (userPos : Position)
    (articles : List WikiArticle) (style : Option TransmissionStyle)
    (rStyle r1 r2 : ℚ) (timestamp : String) (db : List TransmissionLog) (e : String)
    (h : generateText
        (transmissionPrompt userPos articles
          (createPhantomLocation userPos articles r1 r2)
          (style.getD (selectRandomStyle rStyle))) = .error e) :
    generateTransmission generateText userPos articles style rStyle r1 r2 timestamp db =
      (.error e, db) := by
  unfold generateTransmission
  dsimp only
  rw [h]

/-- C6 witness: a collaborator that always rejects, applied at observer
(0, 0) with no anchors, an explicit style, and an empty store. -/
theorem generateTransmission_error_propagates_witness :
    (fun _ : String =>
        (Except.error "LLM not initialized. Call initializeLLM first." :
          Except String String))
      (transmissionPrompt ⟨0, 0, none, 0, 0⟩ []
        (createPhantomLocation ⟨0, 0, none, 0, 0⟩ [] 0 0)
        ((some TransmissionStyle.fragment).getD (selectRandomStyle 0))) =
      .error "LLM not initialized. Call initializeLLM first." ∧
    generateTransmission
        (fun _ => .error "LLM not initialized. Call initializeLLM first.")
        ⟨0, 0, none, 0, 0⟩ [] (some .fragment) 0 0 0 "2026-01-01T00:00:00.000Z" [] =
      (.error "LLM not initialized. Call initializeLLM first.", []) :=
  ⟨rfl,
   generateTransmission_error_propagates
     (fun _ => .error "LLM not initialized. Call initializeLLM first.")
     ⟨0, 0, none, 0, 0⟩ [] (some .fragment) 0 0 0 "2026-01-01T00:00:00.000Z" []
     "LLM not initialized. Call initializeLLM first." rfl⟩

/-- C9 witness: the theorem applied at observer (0, 0), no anchors, and
draws 0. -/
theorem dimensionalDrift_bounds_witness :
    ((0 : ℚ) ≤ 0 ∧ (0 : ℚ) < 1) ∧
      (generatePhantomCoordinates ⟨0, 0, none, 0, 0⟩ [] 0 0).dimensionalDrift ≤ 0.5 :=
  ⟨⟨le_rfl, by norm_num⟩,
   (dimensionalDrift_bounds ⟨0, 0, none, 0, 0⟩ [] 0 0
      le_rfl (by norm_num) le_rfl (by norm_num)).2⟩

end Drift
